import Mathlib

/-!
Verification of the postmaster Python client (src/postmaster/__init__.py)
against its specification.

The module is a thin REST client: a base class `PostmasterObject` holding a
field mapping `_data`, subclasses fixing a resource `PATH`, and free
functions composing the two verbs `put`/`get` with an HTTP transport.

Embedding notes:
  - Python values exchanged with the API are modelled by `PyVal`
    (JSON-like values: None, bool, int, str, list, dict).
  - Python dicts are modelled as association lists in insertion order;
    `dictGet`, `dictSet`, `dictUpdate` mirror `d[k]`, `d[k] = v` and
    `d.update(e)` (replace the value of an existing key in place,
    append a fresh key at the end).
  - `HTTPTransport` lives in src/postmaster/http.py, which is not part of
    the sources; following the specification (section 4.1), each of its
    methods `get`/`post`/`put`/`delete` performs the namesake HTTP request
    and returns the parsed JSON response.  A transport is therefore
    modelled as a function from a `Request` value (method, path, body,
    query params) to the parsed response; `config.headers` is attached to
    every request uniformly and is omitted from the model.
  - Python truthiness (`if id_:`, `action and x or y`) is modelled by
    `truthy`, `pyAnd`, `pyOr`.
  - Exceptions are modelled with `Except PyErr`.
-/

/-- JSON-like Python values exchanged with the API. -/
inductive PyVal where
  | none
  | bool (b : Bool)
  | int (n : Int)
  | str (s : String)
  | list (elems : List PyVal)
  | dict (entries : List (String × PyVal))

/-- Python truthiness of a `PyVal` (used by `if`, `and`, `or`). -/
def truthy : PyVal → Bool
  | PyVal.none => false
  | PyVal.bool b => b
  | PyVal.int n => !(n == 0)
  | PyVal.str s => !(s == "")
  | PyVal.list xs => !xs.isEmpty
  | PyVal.dict xs => !xs.isEmpty

/-- Python `a and b` on values: `b` if `a` is truthy, else `a`. -/
def pyAnd (a b : PyVal) : PyVal := if truthy a then b else a

/-- Python `a or b` on values: `a` if `a` is truthy, else `b`. -/
def pyOr (a b : PyVal) : PyVal := if truthy a then a else b

/-- Python `str(v)`, as used by `%s` interpolation into request paths.
In the source only strings and numbers are interpolated (shipment ids,
zip codes, sub-action names); the container cases are never exercised by
any request path and are given fixed renderings. -/
def pyStr : PyVal → String
  | PyVal.none => "None"
  | PyVal.bool b => if b then "True" else "False"
  | PyVal.int n => toString n
  | PyVal.str s => s
  | PyVal.list _ => "[...]"
  | PyVal.dict _ => "\x7b...\x7d"

/-- `d[k]` on an association-list dict: value at the first matching key. -/
def dictGet : List (String × PyVal) → String → Option PyVal
  | [], _ => Option.none
  | p :: rest, k => if p.1 == k then some p.2 else dictGet rest k

/-- `d[k] = v` on an association-list dict: replace the value of an
existing key in place, append a fresh key at the end. -/
def dictSet : List (String × PyVal) → String → PyVal → List (String × PyVal)
  | [], k, v => [(k, v)]
  | p :: rest, k, v => if p.1 == k then (k, v) :: rest else p :: dictSet rest k v

/-- `d.update(e)`: assign every entry of `e` into `d`, left to right. -/
def dictUpdate (d e : List (String × PyVal)) : List (String × PyVal) :=
  e.foldl (fun acc p => dictSet acc p.1 p.2) d

/-- `d.get(k, default)`: lookup with a default instead of an error. -/
def dictGetD (d : List (String × PyVal)) (k : String) (v : PyVal) : PyVal :=
  (dictGet d k).getD v

/-- Python exceptions raised by the modelled code. -/
inductive PyErr where
  | typeError (msg : String)
  | attributeError (msg : String)
  | keyError (key : String)

/-- The HTTP method of a transport call, i.e. which of the namesake
`HTTPTransport` class methods the code invokes. -/
inductive Method where
  | GET
  | POST
  | PUT
  | DELETE
deriving DecidableEq

/-- One transport call: method, request path (a Python value, since the
path is built with the `and`/`or` idiom), JSON body for POST/PUT, and
query params for GET.  Headers are uniform (`config.headers`) and omitted. -/
structure Request where
  method : Method
  path : PyVal
  body : Option (List (String × PyVal))
  params : Option PyVal

/-- A transport answers each request with a parsed JSON response. -/
abbrev Transport := Request → PyVal

/-- State of a `PostmasterObject` instance: the class-level resource path
`PATH`, the field mapping `_data`, and the one instance attribute ever
assigned directly in the source (`shipment.id` in `Shipment.create`). -/
structure PostmasterObject where
  PATH : String
  _data : List (String × PyVal)
  idAttr : Option PyVal

/-- `PostmasterObject.__init__(**kwargs)` for a class with whitelist
`ARGS`, class name `name` and resource path `PATH`: when `ARGS` is
non-empty, the first keyword not in `ARGS` raises
`TypeError(k + " is an invalid argument for " + name + ".")`;
otherwise `_data` is set to `kwargs` unchanged. -/
def PostmasterObject.init (ARGS : List String) (name PATH : String)
    (kwargs : List (String × PyVal)) : Except PyErr PostmasterObject :=
  match ARGS with
  | [] => Except.ok { PATH := PATH, _data := kwargs, idAttr := Option.none }
  | _ :: _ =>
    match kwargs.find? (fun p => !(ARGS.contains p.1)) with
    | some p =>
        Except.error (PyErr.typeError (p.1 ++ " is an invalid argument for " ++ name ++ "."))
    | Option.none => Except.ok { PATH := PATH, _data := kwargs, idAttr := Option.none }

/-- `PostmasterObject.__getattr__(name)`: look `name` up in `_data`;
raise `AttributeError("Cannot find attribute.")` when absent. -/
def PostmasterObject.getattr_ (self : PostmasterObject) (name : String) :
    Except PyErr PyVal :=
  match dictGet self._data name with
  | Option.none => Except.error (PyErr.attributeError "Cannot find attribute.")
  | some v => Except.ok v

/-- Full attribute lookup on an instance: Python consults the instance
dictionary first (the only instance attribute ever assigned in the source
is `id`), then falls back to `__getattr__`. -/
def PostmasterObject.getattr (self : PostmasterObject) (name : String) :
    Except PyErr PyVal :=
  if name = "id" then
    match self.idAttr with
    | some v => Except.ok v
    | Option.none => self.getattr_ name
  else self.getattr_ name

/-- The transport call built by `PostmasterObject.put(id_, action)`:
`HTTPTransport.put(action and PATH/id/action or PATH/id, _data)` when
`id_` is truthy, else `HTTPTransport.post(PATH, _data)`. -/
def PostmasterObject.putRequest (self : PostmasterObject) (id_ action : PyVal) : Request :=
  if truthy id_ then
    { method := Method.PUT,
      path := pyOr (pyAnd action
                (PyVal.str (self.PATH ++ "/" ++ pyStr id_ ++ "/" ++ pyStr action)))
              (PyVal.str (self.PATH ++ "/" ++ pyStr id_)),
      body := some self._data, params := Option.none }
  else
    { method := Method.POST, path := PyVal.str self.PATH,
      body := some self._data, params := Option.none }

/-- `PostmasterObject.put(id_, action)`: issue the request and return the
response; the method assigns nothing to `self`, so the instance is
returned unchanged alongside the response. -/
def PostmasterObject.put (self : PostmasterObject) (id_ action : PyVal)
    (T : Transport) : PostmasterObject × PyVal :=
  (self, T (self.putRequest id_ action))

/-- The transport call built by `PostmasterObject.get(id_, action, params)`:
`HTTPTransport.get` against `action and PATH/id/action or PATH/id` when
`id_` is truthy, else against `PATH`. -/
def PostmasterObject.getRequest (self : PostmasterObject) (id_ action params : PyVal) :
    Request :=
  if truthy id_ then
    { method := Method.GET,
      path := pyOr (pyAnd action
                (PyVal.str (self.PATH ++ "/" ++ pyStr id_ ++ "/" ++ pyStr action)))
              (PyVal.str (self.PATH ++ "/" ++ pyStr id_)),
      body := Option.none, params := some params }
  else
    { method := Method.GET, path := PyVal.str self.PATH,
      body := Option.none, params := some params }

/-- `PostmasterObject.get(id_, action, params)`: issue the request and
return the parsed response. -/
def PostmasterObject.get (self : PostmasterObject) (id_ action params : PyVal)
    (T : Transport) : PyVal :=
  T (self.getRequest id_ action params)

/- Basic dict lemmas used across the proofs. -/

theorem dictGet_dictSet_self (d : List (String × PyVal)) (k : String) (v : PyVal) :
    dictGet (dictSet d k v) k = some v := by
  induction d with
  | nil => simp [dictSet, dictGet]
  | cons p rest ih =>
      by_cases h : p.1 = k
      · simp [dictSet, dictGet, h]
      · simp only [dictSet, dictGet, beq_iff_eq, h, if_false, if_neg h]
        exact ih

theorem dictGet_dictSet_other (d : List (String × PyVal)) (k k2 : String) (v : PyVal)
    (h : k2 ≠ k) : dictGet (dictSet d k v) k2 = dictGet d k2 := by
  induction d with
  | nil => simp [dictSet, dictGet, beq_iff_eq, Ne.symm h]
  | cons p rest ih =>
      by_cases hp : p.1 = k
      · subst hp
        simp [dictSet, dictGet, beq_iff_eq, Ne.symm h]
      · simp only [dictSet, beq_iff_eq, if_neg hp, dictGet]
        by_cases hp2 : p.1 = k2
        · simp [hp2]
        · simp only [beq_iff_eq, if_neg hp2]
          exact ih

/-- `Address.__init__`: the seven named fields always enter the keyword
dict (defaulting to `None`); `line2`/`line3` are added only when truthy.
`Address` inherits `ARGS = []`, so the base `__init__` stores the dict
unchecked; `PATH` is `/v1/validate`. -/
def Address.init (company contact line1 line2 line3 city state zip_code country : PyVal) :
    PostmasterObject :=
  let kwargs : List (String × PyVal) :=
    [("company", company), ("contact", contact), ("line1", line1), ("city", city),
     ("state", state), ("zip_code", zip_code), ("country", country)]
  let kwargs := if truthy line2 then dictSet kwargs "line2" line2 else kwargs
  let kwargs := if truthy line3 then dictSet kwargs "line3" line3 else kwargs
  { PATH := "/v1/validate", _data := kwargs, idAttr := Option.none }

/-- `Address.validate()`: `self.put()` with no id and no action. -/
def Address.validate (self : PostmasterObject) (T : Transport) : PyVal :=
  (self.put PyVal.none PyVal.none T).2

/-- The field mapping `Shipment.create` assembles before the network call:
required `to`/`packages`/`service`, then each optional field added only
when truthy.  (The Python parameter `to` is a reserved token in Lean and
is spelled `to_` here.) -/
def Shipment.createData (to_ packages service from_ carrier reference options : PyVal) :
    List (String × PyVal) :=
  let d : List (String × PyVal) := [("to", to_), ("packages", packages), ("service", service)]
  let d := if truthy from_ then dictSet d "from" from_ else d
  let d := if truthy carrier then dictSet d "carrier" carrier else d
  let d := if truthy reference then dictSet d "reference" reference else d
  let d := if truthy options then dictSet d "options" options else d
  d

/-- `Shipment.create(to, packages, service, from_, carrier, reference, options)`:
build the field mapping, `put()` it (no id, hence a POST to `/v1/shipments`),
then `_data.update(resp)` and `shipment.id = resp["id"]`.  A non-dict
response makes `update` raise; a dict response without `"id"` raises
`KeyError`. -/
def Shipment.create (to_ packages service from_ carrier reference options : PyVal)
    (T : Transport) : Except PyErr PostmasterObject :=
  let shipment : PostmasterObject :=
    { PATH := "/v1/shipments",
      _data := Shipment.createData to_ packages service from_ carrier reference options,
      idAttr := Option.none }
  let resp := (shipment.put PyVal.none PyVal.none T).2
  match resp with
  | PyVal.dict rd =>
      match dictGet rd "id" with
      | some v =>
          Except.ok { shipment with _data := dictUpdate shipment._data rd, idAttr := some v }
      | Option.none => Except.error (PyErr.keyError "id")
  | _ => Except.error (PyErr.typeError "cannot update dict from non-dict response")

/-- `Rate(from_zip=..., to_zip=..., weight=..., carrier=..., service=...)`:
`Rate` inherits `ARGS = []`, so the keywords are stored unchecked;
`PATH` is `/v1/rates`. -/
def Rate.init (from_zip to_zip weight carrier service : PyVal) : PostmasterObject :=
  { PATH := "/v1/rates",
    _data := [("from_zip", from_zip), ("to_zip", to_zip), ("weight", weight),
              ("carrier", carrier), ("service", service)],
    idAttr := Option.none }

/-- The transport call issued by `get_rate` (via `rate.put()` with no id). -/
def get_rateRequest (carrier to_zip weight from_zip service : PyVal) : Request :=
  (Rate.init from_zip to_zip weight carrier service).putRequest PyVal.none PyVal.none

/-- `get_rate(carrier, to_zip, weight, from_zip, service)`: construct the
`Rate` and `put()` it, returning the raw response. -/
def get_rate (carrier to_zip weight from_zip service : PyVal) (T : Transport) : PyVal :=
  ((Rate.init from_zip to_zip weight carrier service).put PyVal.none PyVal.none T).2

/-- `TimeInTransit(from_zip=..., to_zip=..., weight=..., carrier=...)`:
`ARGS = []`, keywords stored unchecked, `PATH` is `/v1/times`. -/
def TimeInTransit.init (from_zip to_zip weight carrier : PyVal) : PostmasterObject :=
  { PATH := "/v1/times",
    _data := [("from_zip", from_zip), ("to_zip", to_zip), ("weight", weight),
              ("carrier", carrier)],
    idAttr := Option.none }

/-- `get_transit_time(from_zip, to_zip, weight, carrier)`: construct the
`TimeInTransit` and `put()` it, returning the raw response. -/
def get_transit_time (from_zip to_zip weight carrier : PyVal) (T : Transport) : PyVal :=
  ((TimeInTransit.init from_zip to_zip weight carrier).put PyVal.none PyVal.none T).2

/-- Python `x == "lit"` on a JSON value: true exactly for the equal string. -/
def pyEqStr : PyVal → String → Bool
  | PyVal.str a, b => a == b
  | _, _ => false

/-- The transport call issued by `void_shipment(id)`:
`HTTPTransport.delete("/v1/shipments/%s/void" % id)`. -/
def void_shipmentRequest (id : PyVal) : Request :=
  { method := Method.DELETE,
    path := PyVal.str ("/v1/shipments/" ++ pyStr id ++ "/void"),
    body := Option.none, params := Option.none }

/-- `void_shipment(id)`: DELETE `/v1/shipments/id/void`; return `True`
when the response is a dict whose `"message"` equals `"OK"`, otherwise
fall off the end of the function (returning `None`). -/
def void_shipment (id : PyVal) (T : Transport) : PyVal :=
  let status := T (void_shipmentRequest id)
  match status with
  | PyVal.dict d =>
      if pyEqStr (dictGetD d "message" PyVal.none) "OK" then PyVal.bool true
      else PyVal.none
  | _ => PyVal.none

/- Helper lemmas. -/

theorem slash_append_ne_empty (a b : String) : a ++ "/" ++ b ≠ "" := by
  intro h
  have h1 : (a ++ "/" ++ b).length = 0 := by rw [h]; rfl
  rw [String.length_append, String.length_append] at h1
  have h2 : ("/" : String).length = 1 := rfl
  omega

theorem truthy_str_slash (a b : String) : truthy (PyVal.str (a ++ "/" ++ b)) = true := by
  have h := slash_append_ne_empty a b
  simp [truthy, h]

/-- C1: for any entity type with a non-empty field whitelist `ARGS`,
construction with a keyword outside the whitelist raises a `TypeError`
naming the offending field and the class, and construction with only
whitelisted keywords succeeds with `_data` equal to the input mapping. -/
theorem init_whitelist_spec (ARGS : List String) (name PATH : String)
    (kwargs : List (String × PyVal)) (hA : ARGS ≠ []) :
    ((∀ p ∈ kwargs, p.1 ∈ ARGS) →
       PostmasterObject.init ARGS name PATH kwargs =
         Except.ok { PATH := PATH, _data := kwargs, idAttr := Option.none })
    ∧ (∀ q ∈ kwargs, q.1 ∉ ARGS →
        ∃ k, k ∈ kwargs.map Prod.fst ∧ k ∉ ARGS ∧
          PostmasterObject.init ARGS name PATH kwargs =
            Except.error (PyErr.typeError (k ++ " is an invalid argument for " ++ name ++ "."))) := by
  obtain ⟨a, as, rfl⟩ : ∃ a as, ARGS = a :: as := by
    cases ARGS with
    | nil => exact absurd rfl hA
    | cons a as => exact ⟨a, as, rfl⟩
  constructor
  · intro hall
    have hnone : kwargs.find? (fun p => !((a :: as).contains p.1)) = Option.none := by
      rw [List.find?_eq_none]
      intro p hp
      have hc : (a :: as).contains p.1 = true := by
        simp only [List.elem_eq_mem, decide_eq_true_iff]
        exact hall p hp
      simp only [hc]
      decide
    simp only [PostmasterObject.init]
    rw [hnone]
  · intro q hq hqn
    rcases hfind : kwargs.find? (fun p => !((a :: as).contains p.1)) with _ | p
    · exfalso
      rw [List.find?_eq_none] at hfind
      have h2 := hfind q hq
      simp at h2
      by_cases hqa : q.1 = a
      · exact hqn (List.mem_cons.mpr (Or.inl hqa))
      · exact hqn (List.mem_cons.mpr (Or.inr (h2 hqa)))
    · refine ⟨p.1, List.mem_map_of_mem Prod.fst (List.mem_of_find?_eq_some hfind), ?_, ?_⟩
      · have h3 := List.find?_some hfind
        simp at h3
        simpa using h3
      · simp only [PostmasterObject.init]
        rw [hfind]

theorem init_whitelist_spec_witness :
    (PostmasterObject.init ["zip"] "Rate" "/v1/rates" [("zip", PyVal.int 1)] =
       Except.ok { PATH := "/v1/rates", _data := [("zip", PyVal.int 1)],
                   idAttr := Option.none })
    ∧ (∃ k, k ∈ ([("bad", PyVal.int 0)].map Prod.fst) ∧ k ∉ ["zip"] ∧
        PostmasterObject.init ["zip"] "Tracking" "/v1/track" [("bad", PyVal.int 0)] =
          Except.error (PyErr.typeError (k ++ " is an invalid argument for " ++ "Tracking" ++ "."))) := by
  constructor
  · exact (init_whitelist_spec ["zip"] "Rate" "/v1/rates" [("zip", PyVal.int 1)]
      (by simp)).1 (by intro p hp; simp at hp; simp [hp])
  · exact (init_whitelist_spec ["zip"] "Tracking" "/v1/track" [("bad", PyVal.int 0)]
      (by simp)).2 ("bad", PyVal.int 0) (by simp) (by simp)

/-- C2 counterexample: the transport call issued for a rate quote uses
`HTTPTransport.post` (`put()` with no id takes the POST branch), so the
issued request is a POST, not the PUT the claim states; a transport that
answers `1` to PUT requests and `0` otherwise observes `0`. -/
theorem rate_request_not_put :
    get_rate (PyVal.str "fedex") (PyVal.str "78701") (PyVal.int 3) PyVal.none
      (PyVal.str "ground")
      (fun r => if r.method = Method.PUT then PyVal.int 1 else PyVal.int 0) = PyVal.int 0
    ∧ (get_rateRequest (PyVal.str "fedex") (PyVal.str "78701") (PyVal.int 3) PyVal.none
        (PyVal.str "ground")).method = Method.POST
    ∧ Method.POST ≠ Method.PUT := by
  refine ⟨rfl, rfl, by decide⟩

/-- C2 amended: `get_rate`, `Address.validate` and `get_transit_time` each
issue a POST (not a PUT) with the record field mapping as body, to
`/v1/rates`, `/v1/validate` and `/v1/times` respectively, and return the
transport response. -/
theorem quote_requests_are_post
    (carrier to_zip weight from_zip service : PyVal)
    (company contact line1 line2 line3 city state zip_code country : PyVal)
    (fz2 tz2 w2 c2 : PyVal) (T : Transport) :
    get_rate carrier to_zip weight from_zip service T =
      T { method := Method.POST, path := PyVal.str "/v1/rates",
          body := some [("from_zip", from_zip), ("to_zip", to_zip), ("weight", weight),
                        ("carrier", carrier), ("service", service)],
          params := Option.none }
    ∧ Address.validate (Address.init company contact line1 line2 line3 city state
        zip_code country) T =
      T { method := Method.POST, path := PyVal.str "/v1/validate",
          body := some (Address.init company contact line1 line2 line3 city state
                          zip_code country)._data,
          params := Option.none }
    ∧ get_transit_time fz2 tz2 w2 c2 T =
      T { method := Method.POST, path := PyVal.str "/v1/times",
          body := some [("from_zip", fz2), ("to_zip", tz2), ("weight", w2),
                        ("carrier", c2)],
          params := Option.none } :=
  ⟨rfl, rfl, rfl⟩

/-- C3: `put()` with no id POSTs the current field mapping to `PATH` and
returns the parsed response; with a truthy id it PUTs the mapping to
`PATH/id`, or to `PATH/id/action` when a sub-action is given, and returns
the parsed response. -/
theorem put_upsert_spec (o : PostmasterObject) (T : Transport) :
    ((o.put PyVal.none PyVal.none T).2 =
       T { method := Method.POST, path := PyVal.str o.PATH,
           body := some o._data, params := Option.none })
    ∧ (∀ id_ action : PyVal, truthy id_ = true → truthy action = true →
        (o.put id_ action T).2 =
          T { method := Method.PUT,
              path := PyVal.str (o.PATH ++ "/" ++ pyStr id_ ++ "/" ++ pyStr action),
              body := some o._data, params := Option.none })
    ∧ (∀ id_ : PyVal, truthy id_ = true →
        (o.put id_ PyVal.none T).2 =
          T { method := Method.PUT, path := PyVal.str (o.PATH ++ "/" ++ pyStr id_),
              body := some o._data, params := Option.none }) := by
  refine ⟨rfl, ?_, ?_⟩
  · intro id_ action hid hact
    have hpath := truthy_str_slash (o.PATH ++ "/" ++ pyStr id_) (pyStr action)
    simp [PostmasterObject.put, PostmasterObject.putRequest, hid, pyAnd, pyOr, hact, hpath]
  · intro id_ hid
    simp only [PostmasterObject.put, PostmasterObject.putRequest]
    rw [hid]
    simp [pyAnd, pyOr, truthy]

theorem put_upsert_spec_witness :
    ((PostmasterObject.mk "/v1/shipments" [] Option.none).put (PyVal.str "S1")
        (PyVal.str "void") (fun _ => PyVal.none)).2 = PyVal.none := by
  exact (put_upsert_spec (PostmasterObject.mk "/v1/shipments" [] Option.none)
    (fun _ => PyVal.none)).2.1 (PyVal.str "S1") (PyVal.str "void") (by decide) (by decide)

/- Lookup facts about the field mapping assembled by `Shipment.create`. -/

theorem createData_get_required (to_ packages service from_ carrier reference options : PyVal) :
    dictGet (Shipment.createData to_ packages service from_ carrier reference options) "to"
      = some to_
    ∧ dictGet (Shipment.createData to_ packages service from_ carrier reference options)
        "packages" = some packages
    ∧ dictGet (Shipment.createData to_ packages service from_ carrier reference options)
        "service" = some service := by
  unfold Shipment.createData
  split_ifs <;>
    simp [dictGet_dictSet_other, dictGet, dictSet]

theorem createData_get_optional (to_ packages service from_ carrier reference options : PyVal) :
    (truthy from_ = true →
      dictGet (Shipment.createData to_ packages service from_ carrier reference options)
        "from" = some from_)
    ∧ (truthy carrier = true →
      dictGet (Shipment.createData to_ packages service from_ carrier reference options)
        "carrier" = some carrier)
    ∧ (truthy reference = true →
      dictGet (Shipment.createData to_ packages service from_ carrier reference options)
        "reference" = some reference)
    ∧ (truthy options = true →
      dictGet (Shipment.createData to_ packages service from_ carrier reference options)
        "options" = some options) := by
  unfold Shipment.createData
  refine ⟨fun h1 => ?_, fun h2 => ?_, fun h3 => ?_, fun h4 => ?_⟩ <;>
    split_ifs <;>
      simp_all [dictGet_dictSet_self, dictGet_dictSet_other, dictGet, dictSet]

theorem dictGet_update_resp (d : List (String × PyVal)) (k : String) (x y : PyVal)
    (h1 : k ≠ "id") (h2 : k ≠ "status") :
    dictGet (dictUpdate d [("id", x), ("status", y)]) k = dictGet d k := by
  show dictGet (dictSet (dictSet d "id" x) "status" y) k = dictGet d k
  rw [dictGet_dictSet_other _ _ _ _ h2, dictGet_dictSet_other _ _ _ _ h1]

/-- C4: against a transport answering the POST to `/v1/shipments` with
`\x7bid: "S1", status: "created"\x7d`, `Shipment.create` returns a record
whose `id` attribute is `"S1"` and whose field mapping contains all the
original input fields (including any supplied optional ones) together
with both fields of the echoed response. -/
theorem shipment_create_roundtrip
    (to_ packages service from_ carrier reference options : PyVal) (T : Transport)
    (hT : ∀ body, T { method := Method.POST, path := PyVal.str "/v1/shipments",
                      body := some body, params := Option.none } =
      PyVal.dict [("id", PyVal.str "S1"), ("status", PyVal.str "created")]) :
    ∃ sh : PostmasterObject,
      Shipment.create to_ packages service from_ carrier reference options T = Except.ok sh
      ∧ sh.getattr "id" = Except.ok (PyVal.str "S1")
      ∧ dictGet sh._data "to" = some to_
      ∧ dictGet sh._data "packages" = some packages
      ∧ dictGet sh._data "service" = some service
      ∧ (truthy from_ = true → dictGet sh._data "from" = some from_)
      ∧ (truthy carrier = true → dictGet sh._data "carrier" = some carrier)
      ∧ (truthy reference = true → dictGet sh._data "reference" = some reference)
      ∧ (truthy options = true → dictGet sh._data "options" = some options)
      ∧ dictGet sh._data "id" = some (PyVal.str "S1")
      ∧ dictGet sh._data "status" = some (PyVal.str "created") := by
  refine ⟨PostmasterObject.mk "/v1/shipments"
    (dictUpdate (Shipment.createData to_ packages service from_ carrier reference options)
      [("id", PyVal.str "S1"), ("status", PyVal.str "created")])
    (some (PyVal.str "S1")), ?_, rfl, ?_, ?_, ?_, ?_, ?_, ?_, ?_, ?_, ?_⟩
  · simp only [Shipment.create, PostmasterObject.put, PostmasterObject.putRequest, truthy,
      Bool.false_eq_true, if_false]
    rw [hT]
    rfl
  · rw [dictGet_update_resp _ _ _ _ (by decide) (by decide)]
    exact (createData_get_required to_ packages service from_ carrier reference options).1
  · rw [dictGet_update_resp _ _ _ _ (by decide) (by decide)]
    exact (createData_get_required to_ packages service from_ carrier reference options).2.1
  · rw [dictGet_update_resp _ _ _ _ (by decide) (by decide)]
    exact (createData_get_required to_ packages service from_ carrier reference options).2.2
  · intro h
    rw [dictGet_update_resp _ _ _ _ (by decide) (by decide)]
    exact (createData_get_optional to_ packages service from_ carrier reference options).1 h
  · intro h
    rw [dictGet_update_resp _ _ _ _ (by decide) (by decide)]
    exact (createData_get_optional to_ packages service from_ carrier reference options).2.1 h
  · intro h
    rw [dictGet_update_resp _ _ _ _ (by decide) (by decide)]
    exact (createData_get_optional to_ packages service from_ carrier reference
      options).2.2.1 h
  · intro h
    rw [dictGet_update_resp _ _ _ _ (by decide) (by decide)]
    exact (createData_get_optional to_ packages service from_ carrier reference
      options).2.2.2 h
  · show dictGet (dictSet (dictSet _ "id" _) "status" _) "id" = some (PyVal.str "S1")
    rw [dictGet_dictSet_other _ _ _ _ (by decide), dictGet_dictSet_self]
  · show dictGet (dictSet (dictSet _ "id" _) "status" _) "status" = some (PyVal.str "created")
    rw [dictGet_dictSet_self]

theorem shipment_create_roundtrip_witness :
    ∃ sh : PostmasterObject,
      Shipment.create (PyVal.str "Acme") (PyVal.dict [("weight", PyVal.int 2)])
        (PyVal.str "ground") (PyVal.str "Warehouse") PyVal.none PyVal.none PyVal.none
        (fun _ => PyVal.dict [("id", PyVal.str "S1"), ("status", PyVal.str "created")])
        = Except.ok sh
      ∧ sh.getattr "id" = Except.ok (PyVal.str "S1")
      ∧ dictGet sh._data "to" = some (PyVal.str "Acme")
      ∧ dictGet sh._data "packages" = some (PyVal.dict [("weight", PyVal.int 2)])
      ∧ dictGet sh._data "service" = some (PyVal.str "ground")
      ∧ (truthy (PyVal.str "Warehouse") = true →
          dictGet sh._data "from" = some (PyVal.str "Warehouse"))
      ∧ (truthy PyVal.none = true → dictGet sh._data "carrier" = some PyVal.none)
      ∧ (truthy PyVal.none = true → dictGet sh._data "reference" = some PyVal.none)
      ∧ (truthy PyVal.none = true → dictGet sh._data "options" = some PyVal.none)
      ∧ dictGet sh._data "id" = some (PyVal.str "S1")
      ∧ dictGet sh._data "status" = some (PyVal.str "created") :=
  shipment_create_roundtrip (PyVal.str "Acme") (PyVal.dict [("weight", PyVal.int 2)])
    (PyVal.str "ground") (PyVal.str "Warehouse") PyVal.none PyVal.none PyVal.none
    (fun _ => PyVal.dict [("id", PyVal.str "S1"), ("status", PyVal.str "created")])
    (fun _ => rfl)

/-- C5: `void_shipment(id)` issues a DELETE to `/v1/shipments/id/void` and
returns `True` exactly when the response is a dict whose `message` equals
`"OK"`; for any other response shape it returns `None` (falsy, not an
error). -/
theorem void_shipment_spec (id : PyVal) (T : Transport) :
    (void_shipmentRequest id = { method := Method.DELETE,
                                 path := PyVal.str ("/v1/shipments/" ++ pyStr id ++ "/void"),
                                 body := Option.none, params := Option.none })
    ∧ (∀ d, T (void_shipmentRequest id) = PyVal.dict d →
        dictGet d "message" = some (PyVal.str "OK") →
        void_shipment id T = PyVal.bool true)
    ∧ (∀ d, T (void_shipmentRequest id) = PyVal.dict d →
        dictGet d "message" ≠ some (PyVal.str "OK") →
        void_shipment id T = PyVal.none ∧ truthy PyVal.none = false)
    ∧ ((∀ d, T (void_shipmentRequest id) ≠ PyVal.dict d) →
        void_shipment id T = PyVal.none ∧ truthy PyVal.none = false)
    ∧ (void_shipment id T = PyVal.bool true ∨ void_shipment id T = PyVal.none) := by
  refine ⟨rfl, ?_, ?_, ?_, ?_⟩
  · intro d hd hm
    simp [void_shipment, dictGetD, hd, hm, pyEqStr]
  · intro d hd hm
    have hfalse : pyEqStr (dictGetD d "message" PyVal.none) "OK" = false := by
      rcases hval : dictGet d "message" with _ | v
      · simp [dictGetD, hval, pyEqStr]
      · rw [hval] at hm
        have hv : v ≠ PyVal.str "OK" := fun h => hm (by rw [h])
        rcases v with _ | b | n | s | xs | es
        · simp [dictGetD, hval, pyEqStr]
        · simp [dictGetD, hval, pyEqStr]
        · simp [dictGetD, hval, pyEqStr]
        · have hs : s ≠ "OK" := fun h => hv (by rw [h])
          simp [dictGetD, hval, pyEqStr, hs]
        · simp [dictGetD, hval, pyEqStr]
        · simp [dictGetD, hval, pyEqStr]
    refine ⟨?_, rfl⟩
    simp [void_shipment, hd, hfalse]
  · intro hnd
    rcases hT : T (void_shipmentRequest id) with _ | b | n | s | xs | es
    · exact ⟨by simp [void_shipment, hT], rfl⟩
    · exact ⟨by simp [void_shipment, hT], rfl⟩
    · exact ⟨by simp [void_shipment, hT], rfl⟩
    · exact ⟨by simp [void_shipment, hT], rfl⟩
    · exact ⟨by simp [void_shipment, hT], rfl⟩
    · exact absurd hT (hnd es)
  · rcases hT : T (void_shipmentRequest id) with _ | b | n | s | xs | es
    · exact Or.inr (by simp [void_shipment, hT])
    · exact Or.inr (by simp [void_shipment, hT])
    · exact Or.inr (by simp [void_shipment, hT])
    · exact Or.inr (by simp [void_shipment, hT])
    · exact Or.inr (by simp [void_shipment, hT])
    · by_cases hok : pyEqStr (dictGetD es "message" PyVal.none) "OK" = true
      · exact Or.inl (by simp [void_shipment, hT, hok])
      · exact Or.inr (by simp [void_shipment, hT,
          Bool.eq_false_iff.mpr (fun h => hok h)])

theorem void_shipment_spec_witness :
    (void_shipment (PyVal.str "S1")
        (fun _ => PyVal.dict [("message", PyVal.str "OK")]) = PyVal.bool true)
    ∧ (void_shipment (PyVal.str "S1")
        (fun _ => PyVal.dict [("message", PyVal.str "FAILED")]) = PyVal.none
        ∧ truthy PyVal.none = false)
    ∧ (void_shipment (PyVal.str "S1") (fun _ => PyVal.str "gone") = PyVal.none
        ∧ truthy PyVal.none = false) := by
  refine ⟨?_, ?_, ?_⟩
  · exact (void_shipment_spec (PyVal.str "S1")
      (fun _ => PyVal.dict [("message", PyVal.str "OK")])).2.1
      [("message", PyVal.str "OK")] rfl rfl
  · exact (void_shipment_spec (PyVal.str "S1")
      (fun _ => PyVal.dict [("message", PyVal.str "FAILED")])).2.2.1
      [("message", PyVal.str "FAILED")] rfl (by simp [dictGet])
  · exact (void_shipment_spec (PyVal.str "S1")
      (fun _ => PyVal.str "gone")).2.2.2.1 (fun d h => by cases h)

/-- C6 counterexample: supplying `line2` as the empty string (a falsy but
supplied value) stores no `line2` key at all, contradicting the claim
that any supplied value appears in the mapping verbatim. -/
theorem address_line2_falsy_supplied_cex :
    dictGet (Address.init PyVal.none PyVal.none PyVal.none (PyVal.str "") PyVal.none
      PyVal.none PyVal.none PyVal.none PyVal.none)._data "line2" = Option.none
    ∧ dictGet (Address.init PyVal.none PyVal.none PyVal.none (PyVal.str "") PyVal.none
      PyVal.none PyVal.none PyVal.none PyVal.none)._data "line2" ≠ some (PyVal.str "") := by
  refine ⟨rfl, ?_⟩
  intro h
  have h0 : dictGet (Address.init PyVal.none PyVal.none PyVal.none (PyVal.str "")
      PyVal.none PyVal.none PyVal.none PyVal.none PyVal.none)._data "line2" =
      (Option.none : Option PyVal) := rfl
  rw [h0] at h
  exact Option.noConfusion h

/-- C6 amended: the stored mapping contains no `line2` (resp. `line3`) key
when the argument is not supplied or is supplied falsy (the code guards
with truthiness, so e.g. an empty string is dropped); when the supplied
value is truthy the mapping contains the key with exactly that value. -/
theorem address_optional_lines_spec
    (company contact line1 line2 line3 city state zip_code country : PyVal) :
    (truthy line2 = false →
      dictGet (Address.init company contact line1 line2 line3 city state zip_code
        country)._data "line2" = Option.none)
    ∧ (truthy line2 = true →
      dictGet (Address.init company contact line1 line2 line3 city state zip_code
        country)._data "line2" = some line2)
    ∧ (truthy line3 = false →
      dictGet (Address.init company contact line1 line2 line3 city state zip_code
        country)._data "line3" = Option.none)
    ∧ (truthy line3 = true →
      dictGet (Address.init company contact line1 line2 line3 city state zip_code
        country)._data "line3" = some line3) := by
  refine ⟨fun h => ?_, fun h => ?_, fun h => ?_, fun h => ?_⟩ <;>
    by_cases h2 : truthy line2 <;> by_cases h3 : truthy line3 <;>
      simp_all [Address.init, dictGet_dictSet_self, dictGet_dictSet_other, dictGet, dictSet]

theorem address_optional_lines_spec_witness :
    (dictGet (Address.init PyVal.none PyVal.none PyVal.none (PyVal.str "Suite 4")
       PyVal.none PyVal.none PyVal.none PyVal.none PyVal.none)._data "line2" =
       some (PyVal.str "Suite 4"))
    ∧ (dictGet (Address.init PyVal.none PyVal.none PyVal.none (PyVal.str "Suite 4")
       PyVal.none PyVal.none PyVal.none PyVal.none PyVal.none)._data "line3" =
       Option.none) :=
  ⟨(address_optional_lines_spec PyVal.none PyVal.none PyVal.none (PyVal.str "Suite 4")
      PyVal.none PyVal.none PyVal.none PyVal.none PyVal.none).2.1 (by decide),
   (address_optional_lines_spec PyVal.none PyVal.none PyVal.none (PyVal.str "Suite 4")
      PyVal.none PyVal.none PyVal.none PyVal.none PyVal.none).2.2.1 (by decide)⟩

/-- C7: `__getattr__` looks the name up in `_data` and raises
`AttributeError` when the name is absent, rather than returning a
default or `None`. -/
theorem getattr_absent_raises (self : PostmasterObject) (name : String) :
    (dictGet self._data name = Option.none →
      self.getattr_ name = Except.error (PyErr.attributeError "Cannot find attribute."))
    ∧ (∀ v, dictGet self._data name = some v → self.getattr_ name = Except.ok v) := by
  constructor
  · intro h
    simp [PostmasterObject.getattr_, h]
  · intro v h
    simp [PostmasterObject.getattr_, h]

theorem getattr_absent_raises_witness :
    ((PostmasterObject.mk "/v1/rates" [("weight", PyVal.int 2)] Option.none).getattr_ "zip"
       = Except.error (PyErr.attributeError "Cannot find attribute."))
    ∧ ((PostmasterObject.mk "/v1/rates" [("weight", PyVal.int 2)]
         Option.none).getattr_ "weight" = Except.ok (PyVal.int 2)) :=
  ⟨(getattr_absent_raises (PostmasterObject.mk "/v1/rates" [("weight", PyVal.int 2)]
      Option.none) "zip").1 rfl,
   (getattr_absent_raises (PostmasterObject.mk "/v1/rates" [("weight", PyVal.int 2)]
      Option.none) "weight").2 (PyVal.int 2) rfl⟩

/-- C8: `put()` performs no local mutation: for every id, sub-action and
transport, the record (in particular its field mapping) after the call is
the record before the call; only the response is produced. -/
theorem put_preserves_data (o : PostmasterObject) (id_ action : PyVal) (T : Transport) :
    ((o.put id_ action T).1)._data = o._data ∧ (o.put id_ action T).1 = o :=
  ⟨rfl, rfl⟩

/-- C9: a falsy id (`0`, `""`, `None`) makes `put` POST to `PATH` and
`get` target `PATH`, exactly as if no id were given; with a truthy id, a
falsy sub-action collapses the path to `PATH/id`, dropping the sub-action
segment. -/
theorem falsy_id_collapses_path (o : PostmasterObject) (T : Transport)
    (id_ action params : PyVal) :
    (truthy id_ = false →
      (o.put id_ action T).2 =
        T { method := Method.POST, path := PyVal.str o.PATH,
            body := some o._data, params := Option.none }
      ∧ o.get id_ action params T =
        T { method := Method.GET, path := PyVal.str o.PATH,
            body := Option.none, params := some params })
    ∧ (truthy id_ = true → truthy action = false →
      (o.put id_ action T).2 =
        T { method := Method.PUT, path := PyVal.str (o.PATH ++ "/" ++ pyStr id_),
            body := some o._data, params := Option.none }
      ∧ o.get id_ action params T =
        T { method := Method.GET, path := PyVal.str (o.PATH ++ "/" ++ pyStr id_),
            body := Option.none, params := some params }) := by
  constructor
  · intro hid
    constructor
    · simp [PostmasterObject.put, PostmasterObject.putRequest, hid]
    · simp [PostmasterObject.get, PostmasterObject.getRequest, hid]
  · intro hid hact
    have ha : pyOr (pyAnd action
        (PyVal.str (o.PATH ++ "/" ++ pyStr id_ ++ "/" ++ pyStr action)))
        (PyVal.str (o.PATH ++ "/" ++ pyStr id_)) =
        PyVal.str (o.PATH ++ "/" ++ pyStr id_) := by
      simp [pyAnd, pyOr, hact]
    constructor
    · simp [PostmasterObject.put, PostmasterObject.putRequest, hid, ha]
    · simp [PostmasterObject.get, PostmasterObject.getRequest, hid, ha]

theorem falsy_id_collapses_path_witness :
    (((PostmasterObject.mk "/v1/shipments" [] Option.none).put (PyVal.int 0) PyVal.none
        (fun _ => PyVal.none)).2 = PyVal.none)
    ∧ ((PostmasterObject.mk "/v1/shipments" [] Option.none).get (PyVal.int 0) PyVal.none
        PyVal.none (fun _ => PyVal.none) = PyVal.none)
    ∧ (((PostmasterObject.mk "/v1/shipments" [] Option.none).put (PyVal.str "S1")
        (PyVal.str "") (fun _ => PyVal.none)).2 = PyVal.none)
    ∧ ((PostmasterObject.mk "/v1/shipments" [] Option.none).get (PyVal.str "S1")
        (PyVal.str "") PyVal.none (fun _ => PyVal.none) = PyVal.none) := by
  refine ⟨?_, ?_, ?_, ?_⟩
  · exact ((falsy_id_collapses_path (PostmasterObject.mk "/v1/shipments" [] Option.none)
      (fun _ => PyVal.none) (PyVal.int 0) PyVal.none PyVal.none).1 (by decide)).1
  · exact ((falsy_id_collapses_path (PostmasterObject.mk "/v1/shipments" [] Option.none)
      (fun _ => PyVal.none) (PyVal.int 0) PyVal.none PyVal.none).1 (by decide)).2
  · exact ((falsy_id_collapses_path (PostmasterObject.mk "/v1/shipments" [] Option.none)
      (fun _ => PyVal.none) (PyVal.str "S1") (PyVal.str "") PyVal.none).2 (by decide)
      (by decide)).1
  · exact ((falsy_id_collapses_path (PostmasterObject.mk "/v1/shipments" [] Option.none)
      (fun _ => PyVal.none) (PyVal.str "S1") (PyVal.str "") PyVal.none).2 (by decide)
      (by decide)).2

/-- C10: the seven named address fields are always present in the stored
mapping, carrying exactly the supplied argument (so `None` when an
argument is left unsupplied), unlike `line2`/`line3` which are omitted. -/
theorem address_required_keys_present
    (company contact line1 line2 line3 city state zip_code country : PyVal) :
    dictGet (Address.init company contact line1 line2 line3 city state zip_code
      country)._data "company" = some company
    ∧ dictGet (Address.init company contact line1 line2 line3 city state zip_code
      country)._data "contact" = some contact
    ∧ dictGet (Address.init company contact line1 line2 line3 city state zip_code
      country)._data "line1" = some line1
    ∧ dictGet (Address.init company contact line1 line2 line3 city state zip_code
      country)._data "city" = some city
    ∧ dictGet (Address.init company contact line1 line2 line3 city state zip_code
      country)._data "state" = some state
    ∧ dictGet (Address.init company contact line1 line2 line3 city state zip_code
      country)._data "zip_code" = some zip_code
    ∧ dictGet (Address.init company contact line1 line2 line3 city state zip_code
      country)._data "country" = some country := by
  by_cases h2 : truthy line2 <;> by_cases h3 : truthy line3 <;>
    simp [Address.init, h2, h3, dictGet_dictSet_other, dictGet, dictSet]
